import Mathlib

/-!
# SnakeGame — verification of the menu/animation core

Shallow embedding of the SnakeGame repository's menu and animation
subsystem, together with theorems settling the frozen claims about it.

Conventions of the embedding:
* pygame `Rect` coordinates are machine integers; they are modelled as
  `Int` (positions) and the game never relies on overflow.
* A Python `list[Rect] | None` is modelled as `List Rect`, with `None`
  identified with the empty list (both are falsy in the source's
  `if self.secondary_rectangles:` guards).
* Percentage computations such as `int(v * 0.05)` are modelled by the
  exact rational floor `v * 5 / 100`; at every concrete value used in a
  theorem below the double-precision computation of the source agrees
  with the exact one.
* Python exceptions are modelled with `Except String`.
-/

namespace SnakeGame

/-- `snakegame/enuns/animation_stage.py` — `AnimationStage(Enum)` with
members `NONE = 0`, `RUNNING = 1`, `FINISHED = 2`. -/
inductive AnimationStage where
  | NONE
  | RUNNING
  | FINISHED
deriving DecidableEq, Repr

/-- `snakegame/enuns/direction.py` — `Direction(Enum)` with members
`LEFT`, `RIGHT`, `UP`, `DOWN` (the tuple payloads are never consulted by
the animation code and are omitted). -/
inductive Direction where
  | LEFT
  | RIGHT
  | UP
  | DOWN
deriving DecidableEq, Repr

/-- `snakegame/enuns/button_option.py` — `ButtonOption(Enum)`. -/
inductive ButtonOption where
  | NONE
  | START
  | OPTIONS
  | RECORD
  | CREDITS
  | QUIT
  | BACK
  | VOLUME_UP
  | VOLUME_DOWN
  | CONTINUE
  | BACK_TO_MAIN_MENU
  | YES
  | NO
  | DELETE_RECORD
  | SOUND
deriving DecidableEq, Repr

/-- A pygame `Rect`: axis-aligned rectangle with integer position and
size.  Only the fields the verified code touches are kept. -/
structure Rect where
  x : Int
  y : Int
  w : Int
  h : Int
deriving DecidableEq, Repr

/-- State of `snakegame/animation/animation.py` — class `Animation`:
the main rectangle, the list of secondary (follower) rectangles
(`None` ≡ `[]`), and the origin coordinate recorded at bind time
(`self.__origin_coordinate = self.main_rect.x, self.main_rect.y`). -/
structure AnimationState where
  mainRect : Rect
  secondaryRectangles : List Rect
  originCoordinate : Int × Int
deriving DecidableEq, Repr

/-- `Animation.__init__`: binds the rectangles and records the origin
coordinate from the main rectangle's current position. -/
def animationInit (mainRectangle : Rect) (secondaryRectangles : List Rect) :
    AnimationState :=
  { mainRect := mainRectangle
    secondaryRectangles := secondaryRectangles
    originCoordinate := (mainRectangle.x, mainRectangle.y) }

/-- `Animation.__calculate_step_size`: delta from the main rectangle's
current position to the requested coordinate. -/
def calculateStepSize (s : AnimationState) (coordinate : Int × Int) :
    Int × Int :=
  (coordinate.1 - s.mainRect.x, coordinate.2 - s.mainRect.y)

/-- `Animation.__move_secondary_rectangles`: shifts every follower by the
given step; the source skips the loop when the list is falsy (`None` or
empty), which moves nothing. -/
def moveSecondaryRectangles (rects : List Rect) (stepX stepY : Int) :
    List Rect :=
  if rects.isEmpty then rects
  else rects.map fun r => { r with x := r.x + stepX, y := r.y + stepY }

/-- `Animation.set_current_coordinate`: computes the step from the current
main-rect position, moves the main rectangle to the coordinate, then moves
every secondary rectangle by the identical step. -/
def setCurrentCoordinate (s : AnimationState) (coordinate : Int × Int) :
    AnimationState :=
  let step := calculateStepSize s coordinate
  { s with
    mainRect := { s.mainRect with x := coordinate.1, y := coordinate.2 }
    secondaryRectangles :=
      moveSecondaryRectangles s.secondaryRectangles step.1 step.2 }

/-- `Animation.set_current_coordinate_x`. -/
def setCurrentCoordinateX (s : AnimationState) (x : Int) : AnimationState :=
  setCurrentCoordinate s (x, s.mainRect.y)

/-- `Animation.restore_origin_coordinate`. -/
def restoreOriginCoordinate (s : AnimationState) : AnimationState :=
  setCurrentCoordinate s s.originCoordinate

/-- `Animation.get_current_coordinate_x` (`main_rect.topleft[0]`). -/
def getCurrentCoordinateX (s : AnimationState) : Int :=
  s.mainRect.x

/-- `Animation.get_origin_coordinate_x`. -/
def getOriginCoordinateX (s : AnimationState) : Int :=
  s.originCoordinate.1

/-- Shift of a rectangle by a displacement, the operation
`__move_secondary_rectangles` applies to each follower. -/
def shiftRect (dx dy : Int) (r : Rect) : Rect :=
  { r with x := r.x + dx, y := r.y + dy }

theorem moveSecondaryRectangles_eq_map (rects : List Rect) (dx dy : Int) :
    moveSecondaryRectangles rects dx dy = rects.map (shiftRect dx dy) := by
  cases rects with
  | nil => simp [moveSecondaryRectangles]
  | cons r rs => simp [moveSecondaryRectangles, List.isEmpty, shiftRect]

theorem setCurrentCoordinate_mainRect (s : AnimationState) (c : Int × Int) :
    (setCurrentCoordinate s c).mainRect.x = c.1 ∧
      (setCurrentCoordinate s c).mainRect.y = c.2 := by
  simp [setCurrentCoordinate]

theorem setCurrentCoordinate_secondaries (s : AnimationState) (c : Int × Int) :
    (setCurrentCoordinate s c).secondaryRectangles =
      s.secondaryRectangles.map
        (shiftRect (c.1 - s.mainRect.x) (c.2 - s.mainRect.y)) := by
  simp [setCurrentCoordinate, calculateStepSize, moveSecondaryRectangles_eq_map]

theorem shiftRect_comp (a b c d : Int) (r : Rect) :
    shiftRect a b (shiftRect c d r) = shiftRect (c + a) (d + b) r := by
  simp [shiftRect]; constructor <;> ring

/-- Folding a sequence of `set_current_coordinate` calls: every follower
ends up shifted by exactly the primary's cumulative displacement. -/
theorem foldl_setCurrentCoordinate_secondaries
    (coords : List (Int × Int)) (s : AnimationState) :
    (coords.foldl setCurrentCoordinate s).secondaryRectangles =
      s.secondaryRectangles.map
        (shiftRect
          ((coords.foldl setCurrentCoordinate s).mainRect.x - s.mainRect.x)
          ((coords.foldl setCurrentCoordinate s).mainRect.y - s.mainRect.y)) := by
  induction coords generalizing s with
  | nil =>
    simp only [List.foldl_nil, sub_self]
    have : s.secondaryRectangles.map (shiftRect 0 0) = s.secondaryRectangles := by
      have h : shiftRect 0 0 = fun r => r := by
        funext r
        simp [shiftRect]
      rw [h, List.map_id']
    exact this.symm
  | cons c cs ih =>
    simp only [List.foldl_cons]
    rw [ih (setCurrentCoordinate s c), setCurrentCoordinate_secondaries,
      List.map_map]
    congr 1
    funext r
    simp only [Function.comp_apply, shiftRect_comp]
    congr 1
    all_goals simp only [setCurrentCoordinate]
    all_goals omega

/-- C8: For every Animation with follower regions and every finite
sequence of `set_current_coordinate` calls, each follower's cumulative
displacement (in x and y) equals the primary rectangle's cumulative
displacement: the primary-to-follower offsets are translation invariant. -/
theorem C8_follower_displacement_eq_primary
    (s : AnimationState) (coords : List (Int × Int)) (i : Nat) (r r' : Rect)
    (hbefore : s.secondaryRectangles[i]? = some r)
    (hafter : (coords.foldl setCurrentCoordinate s).secondaryRectangles[i]? = some r') :
    r'.x - r.x = (coords.foldl setCurrentCoordinate s).mainRect.x - s.mainRect.x ∧
      r'.y - r.y = (coords.foldl setCurrentCoordinate s).mainRect.y - s.mainRect.y := by
  rw [foldl_setCurrentCoordinate_secondaries] at hafter
  rw [List.getElem?_map, hbefore, Option.map_some'] at hafter
  cases hafter
  simp [shiftRect]

/-- C8 witness: a two-follower animation moved through three concrete
repositionings; each follower's displacement equals the primary's. -/
theorem C8_follower_displacement_eq_primary_witness :
    let s := animationInit ⟨10, 20, 30, 40⟩ [⟨0, 0, 5, 5⟩, ⟨100, -3, 1, 2⟩]
    let coords := [((7 : Int), (9 : Int)), (-4, 2), (15, 15)]
    ∀ r r', s.secondaryRectangles[1]? = some r →
      (coords.foldl setCurrentCoordinate s).secondaryRectangles[1]? = some r' →
      r'.x - r.x = (coords.foldl setCurrentCoordinate s).mainRect.x - s.mainRect.x ∧
        r'.y - r.y = (coords.foldl setCurrentCoordinate s).mainRect.y - s.mainRect.y :=
  fun r r' h1 h2 =>
    C8_follower_displacement_eq_primary _ _ 1 r r' h1 h2

/-! ## Click animation (`snakegame/animation/click.py`) -/

/-- State of class `Click(Animation)`: the inherited animation state bound
to the button's top shape, the bottom shape, and the click stage. -/
structure ClickState where
  anim : AnimationState
  bottomShape : Rect
  clickStage : AnimationStage
deriving DecidableEq, Repr

/-- `Click.__init__`. -/
def clickInit (topShape bottomShape : Rect) (secondaryShapes : List Rect) :
    ClickState :=
  { anim := animationInit topShape secondaryShapes
    bottomShape := bottomShape
    clickStage := AnimationStage.NONE }

/-- `Click.__start_click`: snaps the primary onto the bottom shape's
coordinate and sets the stage to RUNNING. -/
def startClick (c : ClickState) : ClickState :=
  { c with
    anim := setCurrentCoordinate c.anim (c.bottomShape.x, c.bottomShape.y)
    clickStage := AnimationStage.RUNNING }

/-- `Click.__end_click`: restores the origin coordinate and sets the stage
to FINISHED. -/
def endClick (c : ClickState) : ClickState :=
  { c with
    anim := restoreOriginCoordinate c.anim
    clickStage := AnimationStage.FINISHED }

/-- `Click.animate(selector_over_button, is_clicking)`. -/
def clickAnimate (c : ClickState) (selectorOverButton isClicking : Bool) :
    ClickState :=
  if selectorOverButton && isClicking then startClick c
  else if c.clickStage = AnimationStage.RUNNING then endClick c
  else { c with clickStage := AnimationStage.NONE }

/-- `Click.click_done()`. -/
def clickDone (c : ClickState) : Bool :=
  c.clickStage = AnimationStage.FINISHED

/-- A sequence of `Click.animate` calls with the given per-tick
`(selector_over_button, is_clicking)` inputs. -/
def clickIter (c : ClickState) (inputs : List (Bool × Bool)) : ClickState :=
  inputs.foldl (fun s i => clickAnimate s i.1 i.2) c

/-- The per-tick stage-transition relation asserted by claim C3:
only NONE→RUNNING (when over AND clicking), RUNNING→FINISHED and
FINISHED→NONE, besides staying put. -/
def claimedClickTransition (over clicking : Bool) (s t : AnimationStage) :
    Prop :=
  (s = AnimationStage.NONE ∧ t = AnimationStage.RUNNING ∧
      over = true ∧ clicking = true)
  ∨ (s = AnimationStage.RUNNING ∧ t = AnimationStage.FINISHED)
  ∨ (s = AnimationStage.FINISHED ∧ t = AnimationStage.NONE)
  ∨ t = s

/-- The transition relation the code actually implements: additionally,
`(over AND clicking)` restarts the click from FINISHED, giving a
FINISHED→RUNNING edge. -/
def amendedClickTransition (over clicking : Bool) (s t : AnimationStage) :
    Prop :=
  claimedClickTransition over clicking s t
  ∨ (s = AnimationStage.FINISHED ∧ t = AnimationStage.RUNNING ∧
      over = true ∧ clicking = true)

instance (over clicking : Bool) (s t : AnimationStage) :
    Decidable (claimedClickTransition over clicking s t) := by
  unfold claimedClickTransition
  infer_instance

instance (over clicking : Bool) (s t : AnimationStage) :
    Decidable (amendedClickTransition over clicking s t) := by
  unfold amendedClickTransition
  infer_instance

theorem clickAnimate_step (c : ClickState) (over clicking : Bool) :
    amendedClickTransition over clicking c.clickStage
      (clickAnimate c over clicking).clickStage
    ∧ ((clickAnimate c over clicking).clickStage = AnimationStage.FINISHED →
        c.clickStage = AnimationStage.RUNNING) := by
  cases over <;> cases clicking <;>
    rcases hst : c.clickStage with _ | _ | _ <;>
      simp [clickAnimate, startClick, endClick, amendedClickTransition,
        claimedClickTransition, hst]

/-- C3 counterexample: from stage NONE, the input sequence
(over ∧ clicking), (neither), (over ∧ clicking) drives the stages
NONE→RUNNING→FINISHED→RUNNING; the final step leaves FINISHED for RUNNING,
a transition the claim does not allow. -/
theorem C3_counterexample :
    (clickInit ⟨0, 0, 10, 10⟩ ⟨0, 1, 10, 10⟩ []).clickStage =
        AnimationStage.NONE
    ∧ (clickIter (clickInit ⟨0, 0, 10, 10⟩ ⟨0, 1, 10, 10⟩ [])
        [(true, true), (false, false)]).clickStage = AnimationStage.FINISHED
    ∧ (clickAnimate
        (clickIter (clickInit ⟨0, 0, 10, 10⟩ ⟨0, 1, 10, 10⟩ [])
          [(true, true), (false, false)]) true true).clickStage =
        AnimationStage.RUNNING
    ∧ ¬ claimedClickTransition true true
        (clickIter (clickInit ⟨0, 0, 10, 10⟩ ⟨0, 1, 10, 10⟩ [])
          [(true, true), (false, false)]).clickStage
        (clickAnimate
          (clickIter (clickInit ⟨0, 0, 10, 10⟩ ⟨0, 1, 10, 10⟩ [])
            [(true, true), (false, false)]) true true).clickStage := by
  decide

/-- C3 (amended): along every input sequence starting from stage NONE the
per-tick stage transitions are only NONE→RUNNING and FINISHED→RUNNING
(when over AND clicking), RUNNING→FINISHED, FINISHED→NONE, or staying
put; and FINISHED is reached only from a state whose stage was RUNNING. -/
theorem C3_click_stage_transitions (c0 : ClickState)
    (_h0 : c0.clickStage = AnimationStage.NONE)
    (inputs : List (Bool × Bool)) (over clicking : Bool) :
    amendedClickTransition over clicking (clickIter c0 inputs).clickStage
      (clickAnimate (clickIter c0 inputs) over clicking).clickStage
    ∧ ((clickAnimate (clickIter c0 inputs) over clicking).clickStage =
          AnimationStage.FINISHED →
        (clickIter c0 inputs).clickStage = AnimationStage.RUNNING) :=
  clickAnimate_step (clickIter c0 inputs) over clicking

/-- C3 witness: the amended transition property instantiated on a concrete
click whose stage has just reached FINISHED. -/
theorem C3_click_stage_transitions_witness :
    amendedClickTransition false false
      (clickIter (clickInit ⟨0, 0, 10, 10⟩ ⟨0, 1, 10, 10⟩ [])
        [(true, true)]).clickStage
      (clickAnimate
        (clickIter (clickInit ⟨0, 0, 10, 10⟩ ⟨0, 1, 10, 10⟩ [])
          [(true, true)]) false false).clickStage
    ∧ ((clickAnimate
          (clickIter (clickInit ⟨0, 0, 10, 10⟩ ⟨0, 1, 10, 10⟩ [])
            [(true, true)]) false false).clickStage =
          AnimationStage.FINISHED →
        (clickIter (clickInit ⟨0, 0, 10, 10⟩ ⟨0, 1, 10, 10⟩ [])
          [(true, true)]).clickStage = AnimationStage.RUNNING) :=
  C3_click_stage_transitions (clickInit ⟨0, 0, 10, 10⟩ ⟨0, 1, 10, 10⟩ [])
    rfl [(true, true)] false false

/-! ## Record manager (`snakegame/menu/record_manager.py`) -/

/-- State of class `RecordManager`.  The record file is modelled by the
integer it stores (`overwrite_txt` writes `str(n)` and `get_record`
parses it back with `int`).  `record` is the private `__record` cache,
assigned once in `__init__` from `get_record()` and never updated
afterwards. -/
structure RecordManagerState where
  stored : Int
  record : Int
deriving DecidableEq, Repr

/-- `RecordManager.__init__` on a record file holding `fileContent`. -/
def recordManagerInit (fileContent : Int) : RecordManagerState :=
  { stored := fileContent, record := fileContent }

/-- `RecordManager.set_record`: overwrites the file iff the new value
exceeds the cached `__record` (which is never refreshed). -/
def set_record (s : RecordManagerState) (newRecord : Int) :
    RecordManagerState :=
  if newRecord > s.record then { s with stored := newRecord } else s

/-- `RecordManager.get_record`: reads the file. -/
def get_record (s : RecordManagerState) : Int :=
  s.stored

/-- `RecordManager.reset_record`: writes the literal string "0". -/
def reset_record (s : RecordManagerState) : RecordManagerState :=
  { s with stored := 0 }

/-- C2: with the file initially holding 0, `set_record(5)` then
`set_record(3)` leaves the stored value at 3 — not 5 as monotonic
high-score semantics demands — because `set_record` compares against the
`__record` value cached at construction (0) instead of the currently
stored value.  The reset half of the claim does hold:
`reset_record()` then `get_record()` yields 0. -/
theorem C2_set_record_not_monotonic :
    get_record (set_record (set_record (recordManagerInit 0) 5) 3) = 3
    ∧ ¬ get_record (set_record (set_record (recordManagerInit 0) 5) 3) = 5
    ∧ get_record
        (reset_record (set_record (set_record (recordManagerInit 0) 5) 3)) =
        0 := by
  decide

/-! ## Horizontal swing (`snakegame/animation/horizontal_swing.py`)

The swing dynamics read and write only the main rectangle's current
x-coordinate, the origin x-coordinate, the move limit and the current
direction, so the state below is that projection of the full
`Animation` state; `set_current_coordinate_x` propagates the same delta
to every follower (theorem `C8_follower_displacement_eq_primary`). -/

/-- `HorizontalSwing.RANGE_OF_MOTION_PERCENTAGE = 0.05` applied to a
width: `int(width * 0.05)`, modelled by the exact rational floor. -/
def rangeOfMotion (width : Int) : Int :=
  width * 5 / 100

/-- `HorizontalSwing.STEP_SIZE`. -/
def STEP_SIZE : Int := 2

/-- Projection of a `HorizontalSwing` object's state. -/
structure SwingState where
  x : Int
  originX : Int
  moveLimitSize : Int
  currentDirection : Direction
deriving DecidableEq, Repr

/-- `HorizontalSwing.__go_left`. -/
def goLeft (s : SwingState) : SwingState :=
  if s.x > s.originX - s.moveLimitSize then
    { s with x := s.x - STEP_SIZE }
  else
    { s with currentDirection := Direction.RIGHT }

/-- `HorizontalSwing.__go_right`. -/
def goRight (s : SwingState) : SwingState :=
  if s.x < s.originX + s.moveLimitSize then
    { s with x := s.x + STEP_SIZE }
  else
    { s with currentDirection := Direction.LEFT }

/-- `HorizontalSwing.animate`. -/
def swingAnimate (s : SwingState) : SwingState :=
  if s.currentDirection = Direction.LEFT then goLeft s else goRight s

/-- The swing state right after `HorizontalSwing.__init__` would have
completed: origin recorded at the bind position, direction LEFT.
(Claim C5 shows the constructor in fact raises before reaching this
state; these are the dynamics of the `animate`/`__go_left`/`__go_right`
code as written.) -/
def swingInit (originX : Int) (moveLimitSize : Int) : SwingState :=
  { x := originX
    originX := originX
    moveLimitSize := moveLimitSize
    currentDirection := Direction.LEFT }

/-- `n` consecutive `animate()` ticks. -/
def swingIter : Nat → SwingState → SwingState
  | 0, s => s
  | n + 1, s => swingIter n (swingAnimate s)

theorem swingIter_add (a b : Nat) (s : SwingState) :
    swingIter (a + b) s = swingIter b (swingIter a s) := by
  induction a generalizing s with
  | zero => simp [swingIter]
  | succ a ih =>
    rw [Nat.succ_add]
    simp only [swingIter]
    exact ih (swingAnimate s)

theorem swingIter_succ_last (n : Nat) (s : SwingState) :
    swingIter (n + 1) s = swingAnimate (swingIter n s) := by
  induction n generalizing s with
  | zero => simp [swingIter]
  | succ n ih =>
    simp only [swingIter]
    exact ih (swingAnimate s)

/-- Invariant of the swing orbit: origin and limit are constant, the
offset from the origin is even and confined to `[-B, B]` where `B` is the
move limit rounded up to the next even number. -/
def swingInv (ox L B : Int) (s : SwingState) : Prop :=
  s.originX = ox ∧ s.moveLimitSize = L ∧ 2 ∣ (s.x - ox) ∧
    -B ≤ s.x - ox ∧ s.x - ox ≤ B

theorem swingInv_step (ox L : Int) (_hL : 0 ≤ L) (s : SwingState)
    (h : swingInv ox L (L + L % 2) s) :
    swingInv ox L (L + L % 2) (swingAnimate s) := by
  obtain ⟨h1, h2, h3, h4, h5⟩ := h
  unfold swingAnimate goLeft goRight
  split
  · split <;> refine ⟨h1, h2, ?_, ?_, ?_⟩ <;>
      simp only [STEP_SIZE, h1, h2] at * <;> omega
  · split <;> refine ⟨h1, h2, ?_, ?_, ?_⟩ <;>
      simp only [STEP_SIZE, h1, h2] at * <;> omega

theorem swingInv_iter (ox L : Int) (hL : 0 ≤ L) (n : Nat) :
    swingInv ox L (L + L % 2) (swingIter n (swingInit ox L)) := by
  induction n with
  | zero =>
    refine ⟨rfl, rfl, ?_, ?_, ?_⟩ <;> simp [swingIter, swingInit] <;> omega
  | succ n ih =>
    rw [swingIter_succ_last]
    exact swingInv_step ox L hL _ ih

/-- A maximal going-left run: while the strict bound is not yet reached,
each tick moves the primary 2 pixels to the left. -/
theorem swing_left_run (ox L : Int) (k : Nat) :
    ∀ x0 : Int, x0 - 2 * (k : Int) + 2 > ox - L →
      swingIter k
          { x := x0, originX := ox, moveLimitSize := L,
            currentDirection := Direction.LEFT } =
        { x := x0 - 2 * (k : Int), originX := ox, moveLimitSize := L,
          currentDirection := Direction.LEFT } := by
  induction k with
  | zero =>
    intro x0 _
    simp only [swingIter, Nat.cast_zero, mul_zero, sub_zero]
  | succ k ih =>
    intro x0 hk
    have hfirst : x0 > ox - L := by
      push_cast at hk ⊢
      omega
    have hstep : swingAnimate
        { x := x0, originX := ox, moveLimitSize := L,
          currentDirection := Direction.LEFT } =
        { x := x0 - 2, originX := ox, moveLimitSize := L,
          currentDirection := Direction.LEFT } := by
      simp [swingAnimate, goLeft, if_pos hfirst, STEP_SIZE]
    simp only [swingIter, hstep]
    have := ih (x0 - 2) (by push_cast at hk ⊢; omega)
    rw [this]
    congr 1
    push_cast
    ring

/-- A maximal going-right run. -/
theorem swing_right_run (ox L : Int) (k : Nat) :
    ∀ x0 : Int, x0 + 2 * (k : Int) - 2 < ox + L →
      swingIter k
          { x := x0, originX := ox, moveLimitSize := L,
            currentDirection := Direction.RIGHT } =
        { x := x0 + 2 * (k : Int), originX := ox, moveLimitSize := L,
          currentDirection := Direction.RIGHT } := by
  induction k with
  | zero =>
    intro x0 _
    simp only [swingIter, Nat.cast_zero, mul_zero, add_zero]
  | succ k ih =>
    intro x0 hk
    have hfirst : x0 < ox + L := by
      push_cast at hk ⊢
      omega
    have hstep : swingAnimate
        { x := x0, originX := ox, moveLimitSize := L,
          currentDirection := Direction.RIGHT } =
        { x := x0 + 2, originX := ox, moveLimitSize := L,
          currentDirection := Direction.RIGHT } := by
      simp [swingAnimate, goRight, if_pos hfirst, STEP_SIZE]
    simp only [swingIter, hstep]
    have := ih (x0 + 2) (by push_cast at hk ⊢; omega)
    rw [this]
    congr 1
    push_cast
    ring

theorem swing_left_flip (ox L : Int) (x0 : Int) (h : ¬ x0 > ox - L) :
    swingAnimate
        { x := x0, originX := ox, moveLimitSize := L,
          currentDirection := Direction.LEFT } =
      { x := x0, originX := ox, moveLimitSize := L,
        currentDirection := Direction.RIGHT } := by
  simp [swingAnimate, goLeft, if_neg h]

theorem swing_right_flip (ox L : Int) (x0 : Int) (h : ¬ x0 < ox + L) :
    swingAnimate
        { x := x0, originX := ox, moveLimitSize := L,
          currentDirection := Direction.RIGHT } =
      { x := x0, originX := ox, moveLimitSize := L,
        currentDirection := Direction.LEFT } := by
  simp only [swingAnimate]
  rw [if_neg (by decide)]
  simp [goRight, if_neg h]

theorem swingIter_one (s : SwingState) : swingIter 1 s = swingAnimate s :=
  rfl

/-- One full cycle: down to the even bound, flip, up to the opposite
bound, flip, and back to the origin — `2 * B + 2` ticks in all, where `B`
is the move limit rounded up to the next even number. -/
theorem swing_periodic (ox L : Int) (hL : 0 ≤ L) :
    swingIter (2 * (L + L % 2).toNat + 2) (swingInit ox L) =
      swingInit ox L := by
  have hmod : L % 2 = 0 ∨ L % 2 = 1 := by omega
  have h2 : (((L + L % 2) / 2).toNat : Int) = (L + L % 2) / 2 :=
    Int.toNat_of_nonneg (by omega)
  have h3 : ((L + L % 2).toNat : Int) = L + L % 2 :=
    Int.toNat_of_nonneg (by omega)
  have hdiv : 2 * ((L + L % 2) / 2) = L + L % 2 := by omega
  have hsplit : 2 * (L + L % 2).toNat + 2 =
      ((L + L % 2) / 2).toNat +
        (1 + ((L + L % 2).toNat + (1 + ((L + L % 2) / 2).toNat))) := by
    omega
  have phaseA : swingIter ((L + L % 2) / 2).toNat (swingInit ox L) =
      { x := ox - (L + L % 2), originX := ox, moveLimitSize := L,
        currentDirection := Direction.LEFT } := by
    have hrun := swing_left_run ox L ((L + L % 2) / 2).toNat ox
      (by rw [h2]; omega)
    rw [show (swingInit ox L) =
      ({ x := ox, originX := ox, moveLimitSize := L,
         currentDirection := Direction.LEFT } : SwingState) from rfl, hrun]
    congr 1
    rw [h2]
    omega
  have phaseB : swingAnimate
      ({ x := ox - (L + L % 2), originX := ox, moveLimitSize := L,
         currentDirection := Direction.LEFT } : SwingState) =
      { x := ox - (L + L % 2), originX := ox, moveLimitSize := L,
        currentDirection := Direction.RIGHT } :=
    swing_left_flip ox L (ox - (L + L % 2)) (by omega)
  have phaseC : swingIter (L + L % 2).toNat
      ({ x := ox - (L + L % 2), originX := ox, moveLimitSize := L,
         currentDirection := Direction.RIGHT } : SwingState) =
      { x := ox + (L + L % 2), originX := ox, moveLimitSize := L,
        currentDirection := Direction.RIGHT } := by
    have hrun := swing_right_run ox L (L + L % 2).toNat (ox - (L + L % 2))
      (by rw [h3]; omega)
    rw [hrun]
    congr 1
    rw [h3]
    omega
  have phaseD : swingAnimate
      ({ x := ox + (L + L % 2), originX := ox, moveLimitSize := L,
         currentDirection := Direction.RIGHT } : SwingState) =
      { x := ox + (L + L % 2), originX := ox, moveLimitSize := L,
        currentDirection := Direction.LEFT } :=
    swing_right_flip ox L (ox + (L + L % 2)) (by omega)
  have phaseE : swingIter ((L + L % 2) / 2).toNat
      ({ x := ox + (L + L % 2), originX := ox, moveLimitSize := L,
         currentDirection := Direction.LEFT } : SwingState) =
      swingInit ox L := by
    have hrun := swing_left_run ox L ((L + L % 2) / 2).toNat (ox + (L + L % 2))
      (by rw [h2]; omega)
    rw [hrun, show (swingInit ox L) =
      ({ x := ox, originX := ox, moveLimitSize := L,
         currentDirection := Direction.LEFT } : SwingState) from rfl]
    congr 1
    rw [h2]
    omega
  rw [hsplit, swingIter_add, phaseA, swingIter_add, swingIter_one, phaseB,
    swingIter_add, phaseC, swingIter_add, swingIter_one, phaseD, phaseE]

/-- Shape of a single tick from a reachable state: either the direction
is kept and the x-coordinate moves by exactly 2 pixels, or the tick is a
direction flip that does not move and happens exactly at the even bound
`±(L + L % 2)`. -/
theorem swing_step_shape (ox L : Int) (hL : 0 ≤ L) (n : Nat) :
    ((swingAnimate (swingIter n (swingInit ox L))).currentDirection =
        (swingIter n (swingInit ox L)).currentDirection
      ∧ ((swingAnimate (swingIter n (swingInit ox L))).x -
            (swingIter n (swingInit ox L)).x = 2
        ∨ (swingAnimate (swingIter n (swingInit ox L))).x -
            (swingIter n (swingInit ox L)).x = -2))
    ∨ ((swingAnimate (swingIter n (swingInit ox L))).x =
          (swingIter n (swingInit ox L)).x
      ∧ ¬ (swingAnimate (swingIter n (swingInit ox L))).currentDirection =
          (swingIter n (swingInit ox L)).currentDirection
      ∧ ((swingIter n (swingInit ox L)).x - ox = L + L % 2
        ∨ (swingIter n (swingInit ox L)).x - ox = -(L + L % 2))) := by
  obtain ⟨h1, h2, h3, h4, h5⟩ := swingInv_iter ox L hL n
  generalize hs : swingIter n (swingInit ox L) = s at *
  unfold swingAnimate goLeft goRight
  by_cases hdir : s.currentDirection = Direction.LEFT
  · rw [if_pos hdir]
    by_cases hx : s.x > s.originX - s.moveLimitSize
    · rw [if_pos hx]
      left
      refine ⟨rfl, Or.inr ?_⟩
      simp [STEP_SIZE]
    · rw [if_neg hx]
      right
      refine ⟨rfl, ?_, ?_⟩
      · simp only [hdir]
        decide
      · rw [h1, h2] at hx
        omega
  · rw [if_neg hdir]
    by_cases hx : s.x < s.originX + s.moveLimitSize
    · rw [if_pos hx]
      left
      refine ⟨rfl, Or.inl ?_⟩
      simp [STEP_SIZE]
    · rw [if_neg hx]
      right
      refine ⟨rfl, ?_, ?_⟩
      · exact fun hcontra => hdir hcontra.symm
      · rw [h1, h2] at hx
        omega

/-- C4 counterexample: with the primary 100 pixels wide the computed
range of motion is `int(100 * 0.05) = 5`; starting at the origin the
third tick moves the primary to x = origin − 6, strictly outside the
claimed ±(5% of width) band — the direction flip overshoots by one step
whenever the computed limit is odd. -/
theorem C4_counterexample :
    rangeOfMotion 100 = 5
    ∧ (swingIter 3 (swingInit 0 (rangeOfMotion 100))).x = -6
    ∧ ¬ (-(rangeOfMotion 100) ≤ (swingIter 3 (swingInit 0 (rangeOfMotion 100))).x - 0
        ∧ (swingIter 3 (swingInit 0 (rangeOfMotion 100))).x - 0 ≤ rangeOfMotion 100) := by
  decide

/-- C4 (amended): for every origin, every nonnegative computed move limit
`L = int(0.05 * width)` and every number of ticks, the primary's
x-coordinate stays within `±B` of the origin where `B = L + L % 2` is the
limit rounded up to the next even number (so up to one 2-pixel step past
`±L` when `L` is odd); every tick either keeps the direction and moves x
by exactly 2 pixels, or is a non-moving direction flip occurring exactly
at `±B`; and the motion is periodic: after `2*B + 2` ticks the swing
state returns exactly to its initial state (x back at the origin). -/
theorem C4_swing_bounded_step_periodic (ox L : Int) (hL : 0 ≤ L) (n : Nat) :
    (-(L + L % 2) ≤ (swingIter n (swingInit ox L)).x - ox
      ∧ (swingIter n (swingInit ox L)).x - ox ≤ L + L % 2)
    ∧ (((swingAnimate (swingIter n (swingInit ox L))).currentDirection =
          (swingIter n (swingInit ox L)).currentDirection
        ∧ ((swingAnimate (swingIter n (swingInit ox L))).x -
              (swingIter n (swingInit ox L)).x = 2
          ∨ (swingAnimate (swingIter n (swingInit ox L))).x -
              (swingIter n (swingInit ox L)).x = -2))
      ∨ ((swingAnimate (swingIter n (swingInit ox L))).x =
            (swingIter n (swingInit ox L)).x
        ∧ ¬ (swingAnimate (swingIter n (swingInit ox L))).currentDirection =
            (swingIter n (swingInit ox L)).currentDirection
        ∧ ((swingIter n (swingInit ox L)).x - ox = L + L % 2
          ∨ (swingIter n (swingInit ox L)).x - ox = -(L + L % 2))))
    ∧ swingIter (2 * (L + L % 2).toNat + 2) (swingInit ox L) =
        swingInit ox L := by
  refine ⟨?_, swing_step_shape ox L hL n, swing_periodic ox L hL⟩
  obtain ⟨-, -, -, h4, h5⟩ := swingInv_iter ox L hL n
  exact ⟨h4, h5⟩

/-- C4 witness: the amended swing property instantiated at origin 0,
computed limit 5 (primary width 100) and 3 elapsed ticks. -/
theorem C4_swing_bounded_step_periodic_witness :
    (-(5 + 5 % 2) ≤ (swingIter 3 (swingInit 0 5)).x - 0
      ∧ (swingIter 3 (swingInit 0 5)).x - 0 ≤ 5 + 5 % 2)
    ∧ (((swingAnimate (swingIter 3 (swingInit 0 5))).currentDirection =
          (swingIter 3 (swingInit 0 5)).currentDirection
        ∧ ((swingAnimate (swingIter 3 (swingInit 0 5))).x -
              (swingIter 3 (swingInit 0 5)).x = 2
          ∨ (swingAnimate (swingIter 3 (swingInit 0 5))).x -
              (swingIter 3 (swingInit 0 5)).x = -2))
      ∨ ((swingAnimate (swingIter 3 (swingInit 0 5))).x =
            (swingIter 3 (swingInit 0 5)).x
        ∧ ¬ (swingAnimate (swingIter 3 (swingInit 0 5))).currentDirection =
            (swingIter 3 (swingInit 0 5)).currentDirection
        ∧ ((swingIter 3 (swingInit 0 5)).x - 0 = 5 + 5 % 2
          ∨ (swingIter 3 (swingInit 0 5)).x - 0 = -(5 + 5 % 2))))
    ∧ swingIter (2 * ((5 : Int) + 5 % 2).toNat + 2) (swingInit 0 5) =
        swingInit 0 5 :=
  C4_swing_bounded_step_periodic 0 5 (by decide) 3

/-! ## The missing `get_main_rectangle` accessor (claim C5)

`HorizontalSwing.__calculate_the_size_of_the_move` calls
`super().get_main_rectangle()`.  Python resolves the name against the
attributes defined by `HorizontalSwing` and its base `Animation`; the
lists below enumerate exactly the names bound in the two class bodies of
`snakegame/animation/horizontal_swing.py` and
`snakegame/animation/animation.py` (name-mangled private helpers are
unreachable through `super()` and irrelevant here), and attribute lookup
is modelled by list membership, raising `AttributeError` on a miss. -/

/-- Names bound in the class body of `Animation`. -/
def animationClassAttributes : List String :=
  ["main_rect", "secondary_rectangles", "origin_coordinate", "animate",
   "reload_animation", "restore_origin_coordinate", "set_current_coordinate",
   "set_current_coordinate_x", "set_current_coordinate_y",
   "get_current_coordinate_x", "get_current_coordinate_y",
   "get_origin_coordinate_x", "get_origin_coordinate_y"]

/-- Names bound in the class body of `HorizontalSwing`. -/
def horizontalSwingClassAttributes : List String :=
  ["RANGE_OF_MOTION_PERCENTAGE", "STEP_SIZE", "animate", "reload_animation"]

/-- Names bound in the class body of `Text`
(`snakegame/text/text.py`) — note `rect` is a property; there is no
`get_rect` method. -/
def textClassAttributes : List String :=
  ["content", "size", "color", "font_path", "coordinate", "text", "rect",
   "draw", "set_size_keeping_center_coordinate", "set_x", "set_y",
   "set_center", "set_center_x", "get_center", "get_center_y",
   "set_midtop", "get_height", "get_width", "get_middle_bottom"]

/-- `HorizontalSwing.__calculate_the_size_of_the_move`:
`int(super().get_main_rectangle().width * RANGE_OF_MOTION_PERCENTAGE)`;
the accessor `get_main_rectangle` is defined by neither class, so the
lookup raises. -/
def calculateTheSizeOfTheMove (mainRect : Rect) : Except String Int :=
  if "get_main_rectangle" ∈
      horizontalSwingClassAttributes ++ animationClassAttributes then
    Except.ok (rangeOfMotion mainRect.w)
  else
    Except.error "AttributeError: get_main_rectangle"

/-- `HorizontalSwing.__init__`: binds the rectangles via
`Animation.__init__`, then computes the move limit (which raises), then
would set the direction to LEFT. -/
def horizontalSwingInit (mainRectangle : Rect)
    (_secondaryRectangles : List Rect) : Except String SwingState :=
  match calculateTheSizeOfTheMove mainRectangle with
  | Except.ok limit =>
      Except.ok
        { x := mainRectangle.x
          originX := mainRectangle.x
          moveLimitSize := limit
          currentDirection := Direction.LEFT }
  | Except.error e => Except.error e

/-- `AnimatedText.__init__` line
`self.__animation: Animation = HorizontalSwing(super().get_rect())`:
the `get_rect` lookup is resolved against the attributes of the base
class `Text`, which defines a `rect` property but no `get_rect` method,
so this line raises before `HorizontalSwing.__init__` is entered; had
the lookup succeeded it would build a horizontal swing on the text's
own rectangle with no followers. -/
def animatedTextInitAnimation (textRect : Rect) : Except String SwingState :=
  if "get_rect" ∈ textClassAttributes then
    horizontalSwingInit textRect []
  else
    Except.error "AttributeError: get_rect"

/-- C5 counterexample: at a concrete text rectangle, constructing the
animation of an `AnimatedText` fails with the `AttributeError` for
`get_rect`, raised by `super().get_rect()` in `AnimatedText.__init__`
itself — not with the `get_main_rectangle` error of the move-limit
computation the claim names: `HorizontalSwing.__init__` is never entered
on this path. -/
theorem C5_counterexample :
    animatedTextInitAnimation ⟨0, 0, 100, 20⟩ =
        Except.error "AttributeError: get_rect"
    ∧ ¬ animatedTextInitAnimation ⟨0, 0, 100, 20⟩ =
        Except.error "AttributeError: get_main_rectangle" := by
  constructor
  · rfl
  · intro h
    rw [show animatedTextInitAnimation ⟨0, 0, 100, 20⟩ =
      Except.error "AttributeError: get_rect" from rfl] at h
    simp only [Except.error.injEq] at h
    exact absurd h (by decide)

/-- C5 (amended): constructing a `HorizontalSwing` always raises
`AttributeError` before returning, because the move-limit computation
invokes the accessor `get_main_rectangle`, defined neither on
`Animation` nor on `HorizontalSwing`; constructing an `AnimatedText`
also always raises, but already at `super().get_rect()` in
`AnimatedText.__init__` — its base `Text` defines a `rect` property and
no `get_rect` method — so `HorizontalSwing.__init__` is never entered on
that path; either way, no horizontal-swing animation object is ever
successfully created. -/
theorem C5_horizontal_swing_constructor_raises (mainRectangle : Rect)
    (secondaryRectangles : List Rect) :
    horizontalSwingInit mainRectangle secondaryRectangles =
        Except.error "AttributeError: get_main_rectangle"
    ∧ animatedTextInitAnimation mainRectangle =
        Except.error "AttributeError: get_rect" := by
  constructor <;> rfl

/-! ## Button (`snakegame/menu/button.py`)

The fields below are the projection of a `Button` that
`events`/`__is_next_to_the_button`/`__enable_accent_color`/
`__manage_click` read and write: the option tag, the top shape's top and
bottom edges, the three configured colors and the current accent color. -/

structure ButtonState where
  option : ButtonOption
  topShapeTopY : Int
  topShapeBottomY : Int
  secondaryColor : Int × Int × Int
  accentColor : Int × Int × Int
  currentAccentColor : Int × Int × Int
deriving DecidableEq, Repr

/-- `Button.__is_next_to_the_button`:
`self.top_shape.topleft[1] < y < self.top_shape.bottomleft[1]`
(strict on both sides). -/
def isNextToTheButton (b : ButtonState) (y : Int) : Prop :=
  b.topShapeTopY < y ∧ y < b.topShapeBottomY

instance (b : ButtonState) (y : Int) : Decidable (isNextToTheButton b y) := by
  unfold isNextToTheButton
  infer_instance

/-- `Button.__enable_accent_color`. -/
def enableAccentColor (b : ButtonState) (wish : Bool) : ButtonState :=
  if wish then { b with currentAccentColor := b.accentColor }
  else { b with currentAccentColor := b.secondaryColor }

/-- `Button.__manage_click`: the option when on the button and clicking,
NONE otherwise. -/
def manageClick (b : ButtonState) (isOnTheButton isClicking : Bool) :
    ButtonOption :=
  if isOnTheButton && isClicking then b.option else ButtonOption.NONE

/-- `Button.events(selector_center_y, is_clicking)`: computes
row-alignment, toggles the accent color accordingly, and returns the
result of `__manage_click` — the returned pair is (updated button,
returned option). -/
def buttonEvents (b : ButtonState) (selectorCenterY : Int)
    (isClicking : Bool) : ButtonState × ButtonOption :=
  let result := decide (isNextToTheButton b selectorCenterY)
  (enableAccentColor b result, manageClick b result isClicking)

/-- C1 counterexample: a START button, row-aligned selector, pressing
held, and a click animation whose stage is NONE (not FINISHED): `events`
returns the button's own option anyway, so the claimed equivalence
"returns the option iff aligned AND pressing AND click animation FINISHED
this tick" is false — the code's `__manage_click` never consults any
click animation. -/
theorem C1_counterexample :
    ¬ ((buttonEvents
          ⟨ButtonOption.START, 0, 10, (0, 0, 0), (1, 1, 1), (0, 0, 0)⟩
          5 true).2 =
          (⟨ButtonOption.START, 0, 10, (0, 0, 0), (1, 1, 1), (0, 0, 0)⟩ :
            ButtonState).option
        ↔ (isNextToTheButton
            ⟨ButtonOption.START, 0, 10, (0, 0, 0), (1, 1, 1), (0, 0, 0)⟩ 5
          ∧ true = true
          ∧ AnimationStage.NONE = AnimationStage.FINISHED)) := by
  decide

/-- C1 (amended): `Button.events` returns the button's own option iff the
selector is row-aligned with the button AND the pressing flag holds — no
click-animation condition is involved; in every other case it returns
ButtonOption.NONE. -/
theorem C1_button_events_iff (b : ButtonState) (selectorCenterY : Int)
    (isClicking : Bool) :
    (¬ (isNextToTheButton b selectorCenterY ∧ isClicking = true) →
      (buttonEvents b selectorCenterY isClicking).2 = ButtonOption.NONE)
    ∧ (¬ b.option = ButtonOption.NONE →
        ((buttonEvents b selectorCenterY isClicking).2 = b.option ↔
          isNextToTheButton b selectorCenterY ∧ isClicking = true)) := by
  constructor
  · intro h
    simp only [buttonEvents, manageClick]
    by_cases ha : isNextToTheButton b selectorCenterY
    · cases isClicking
      · simp [ha]
      · exact absurd ⟨ha, rfl⟩ h
    · simp [ha]
  · intro hopt
    simp only [buttonEvents, manageClick]
    by_cases ha : isNextToTheButton b selectorCenterY
    · cases isClicking
      · simp [ha]
        intro hcontra
        exact hopt hcontra.symm
      · simp [ha]
    · cases isClicking <;>
        · simp [ha]
          intro hcontra
          exact hopt hcontra.symm

/-- C1 witness: the amended equivalence instantiated on a concrete
START button with an aligned selector and the press held. -/
theorem C1_button_events_iff_witness :
    (buttonEvents
        ⟨ButtonOption.START, 0, 10, (0, 0, 0), (1, 1, 1), (0, 0, 0)⟩
        5 true).2 =
      (⟨ButtonOption.START, 0, 10, (0, 0, 0), (1, 1, 1), (0, 0, 0)⟩ :
        ButtonState).option :=
  ((C1_button_events_iff
      ⟨ButtonOption.START, 0, 10, (0, 0, 0), (1, 1, 1), (0, 0, 0)⟩
      5 true).2 (by decide)).mpr ⟨by decide, rfl⟩

/-! ## Menu layout (`snakegame/menu/menu.py`)

`Menu.__align_buttons` positions buttons through the accessors
`get_height`, `set_top_shape_midtop` and `get_bottom_shape_midbottom`.
Those accessors are absent from the `Button` variant under `src/` (only
their callers are present), so the button geometry they expose is
modelled from the spec. -/

/-- Modelled from the spec: the `Button` accessors used by the menu
layout (`get_height`, `set_top_shape_midtop`,
`get_bottom_shape_midbottom`) are missing from `src/`.  Per the spec a
button is a top shape of height `get_height()` with a bottom "shadow"
shape offset `shadowDrop` pixels below it, positioned by the top shape's
midtop; the bottom shape's bottom edge is the button's bottom edge. -/
structure MenuButton where
  height : Int
  shadowDrop : Int
  midtopX : Int
  topY : Int
deriving DecidableEq, Repr, Inhabited

/-- `Button.set_top_shape_midtop` (modelled from the spec). -/
def setTopShapeMidtop (b : MenuButton) (midtop : Int × Int) : MenuButton :=
  { b with midtopX := midtop.1, topY := midtop.2 }

/-- `Button.get_bottom_shape_midbottom` (modelled from the spec):
the shadow shape has the top shape's height and sits `shadowDrop` below
it. -/
def getBottomShapeMidbottom (b : MenuButton) : Int × Int :=
  (b.midtopX, b.topY + b.height + b.shadowDrop)

/-- `Button.get_height` (modelled from the spec). -/
def getHeight (b : MenuButton) : Int :=
  b.height

/-- The background geometry consulted by the alignment routines:
`get_midtop() = (centerX, top)`, `get_center()`,
`get_midbottom() = (centerX, top + height)`, `get_height()`. -/
structure BackgroundGeom where
  top : Int
  centerX : Int
  height : Int
deriving DecidableEq, Repr

/-- `Menu.__calculate_button_box_height`: total of the buttons' heights
plus the given spacing between consecutive buttons. -/
def calculateButtonBoxHeight (buttons : List MenuButton) (space : Int) :
    Int :=
  ((buttons.length : Int) - 1) * space + (buttons.map getHeight).sum

/-- The spacing computed in `Menu.__align_buttons`:
`int(button_box_height_without_spaces * BUTTON_SPACING_PERCENTAGE) //
len(buttons)` with `BUTTON_SPACING_PERCENTAGE = 0.1`. -/
def spaceBetweenButtons (buttons : List MenuButton) : Int :=
  calculateButtonBoxHeight buttons 0 * 10 / 100 / (buttons.length : Int)

/-- The chaining loop of `Menu.__adjust_button_alignment` after the first
button: each button's midtop is the previous (already moved) button's
bottom-shape midbottom, `space` pixels lower. -/
def adjustFollow (space : Int) (prevMidbottom : Int × Int) :
    List MenuButton → List MenuButton
  | [] => []
  | b :: rest =>
      let moved := setTopShapeMidtop b (prevMidbottom.1, prevMidbottom.2 + space)
      moved :: adjustFollow space (getBottomShapeMidbottom moved) rest

/-- `Menu.__adjust_button_alignment`: the first button is placed at the
initial midtop, the rest chain below it. -/
def adjustButtonAlignment (buttons : List MenuButton)
    (initialMidtop : Int × Int) (space : Int) : List MenuButton :=
  match buttons with
  | [] => []
  | b :: rest =>
      let moved := setTopShapeMidtop b initialMidtop
      moved :: adjustFollow space (getBottomShapeMidbottom moved) rest

/-- `Menu.__align_buttons_on_top`: first midtop is the background's
midtop pushed down by `int(height * BUTTONS_MARGIN_PERCENTAGE)` with
`BUTTONS_MARGIN_PERCENTAGE = 0.15`. -/
def alignButtonsOnTop (bg : BackgroundGeom) (buttons : List MenuButton)
    (space : Int) : List MenuButton :=
  adjustButtonAlignment buttons
    (bg.centerX, bg.top + bg.height * 15 / 100) space

/-- `Menu.__align_buttons_on_center`. -/
def alignButtonsOnCenter (bg : BackgroundGeom) (buttons : List MenuButton)
    (space : Int) : List MenuButton :=
  adjustButtonAlignment buttons
    (bg.centerX,
      bg.top + bg.height / 2 - calculateButtonBoxHeight buttons space / 2)
    space

/-- `Menu.__align_buttons_on_bottom`. -/
def alignButtonsOnBottom (bg : BackgroundGeom) (buttons : List MenuButton)
    (space : Int) : List MenuButton :=
  adjustButtonAlignment buttons
    (bg.centerX,
      bg.top + bg.height - calculateButtonBoxHeight buttons space -
        bg.height * 15 / 100)
    space

/-- `Menu.__align_buttons`: dispatch on the alignment tag (1 = top,
2 = center, otherwise bottom). -/
def alignButtons (bg : BackgroundGeom) (buttonAlignment : Int)
    (buttons : List MenuButton) : List MenuButton :=
  let space := spaceBetweenButtons buttons
  if buttonAlignment = 1 then alignButtonsOnTop bg buttons space
  else if buttonAlignment = 2 then alignButtonsOnCenter bg buttons space
  else alignButtonsOnBottom bg buttons space

/-- C6: in a 3-button TOP-aligned menu inside a 300px-tall background,
the first button's top edge lands at `background.top + 0.15*300 = top+45`
and the second button's top edge is the first button's bottom edge
(bottom-shape bottom) plus the gap
`floor(sum(heights)*0.1 / 3) = int(sum(heights)*0.1) // 3`. -/
theorem C6_three_button_top_alignment (T cX : Int) (b1 b2 b3 : MenuButton) :
    (alignButtons ⟨T, cX, 300⟩ 1 [b1, b2, b3])[0]!.topY = T + 45
    ∧ (alignButtons ⟨T, cX, 300⟩ 1 [b1, b2, b3])[1]!.topY =
        (getBottomShapeMidbottom
          ((alignButtons ⟨T, cX, 300⟩ 1 [b1, b2, b3])[0]!)).2 +
          (getHeight b1 + getHeight b2 + getHeight b3) * 10 / 100 / 3
    ∧ (getHeight b1 + getHeight b2 + getHeight b3) * 10 / 100 / 3 =
        (getHeight b1 + getHeight b2 + getHeight b3) / 30
    ∧ (300 : Int) * 15 / 100 = 45 := by
  refine ⟨?_, ?_, ?_, by norm_num⟩
  · simp [alignButtons, alignButtonsOnTop, adjustButtonAlignment,
      setTopShapeMidtop]
  · simp [alignButtons, alignButtonsOnTop, adjustButtonAlignment,
      adjustFollow, setTopShapeMidtop, getBottomShapeMidbottom,
      spaceBetweenButtons, calculateButtonBoxHeight, getHeight]
    omega
  · simp only [getHeight]
    omega

/-! ## Menu key navigation (`snakegame/menu/menu.py`) -/

/-- A snapshot of `pygame.key.get_pressed()` restricted to the three
`Menu.KEYS` entries. -/
structure PressedKeys where
  up : Bool
  down : Bool
  select : Bool
deriving DecidableEq, Repr

/-- A pygame event as seen by `Menu.__directional_key_events`: whether it
is a KEYDOWN, together with the pressed-key snapshot taken when handling
it. -/
structure MenuEvent where
  isKeyDown : Bool
  keys : PressedKeys
deriving DecidableEq, Repr

/-- The menu-navigation state touched by the key handlers: the focus
index and the number of times `play_sound("scroll")` ran. -/
structure MenuNavState where
  currentButton : Nat
  scrollSoundCount : Nat
deriving DecidableEq, Repr

/-- `Menu.__pressed_up`: `current_button - 1 in range(0, n)` decrements,
otherwise wraps to `n - 1`; the scroll sound plays on every move. -/
def pressedUp (n : Nat) (keys : PressedKeys) (s : MenuNavState) :
    MenuNavState :=
  if keys.up && !keys.select then
    { currentButton :=
        if 1 ≤ s.currentButton ∧ s.currentButton - 1 < n then
          s.currentButton - 1
        else n - 1
      scrollSoundCount := s.scrollSoundCount + 1 }
  else s

/-- `Menu.__pressed_down`: `current_button + 1 in range(0, n)` increments,
otherwise wraps to `0`; the scroll sound plays on every move. -/
def pressedDown (n : Nat) (keys : PressedKeys) (s : MenuNavState) :
    MenuNavState :=
  if keys.down && !keys.select then
    { currentButton :=
        if s.currentButton + 1 < n then s.currentButton + 1 else 0
      scrollSoundCount := s.scrollSoundCount + 1 }
  else s

/-- `Menu.__directional_key_events`: on a KEYDOWN event, run the up
handler then the down handler against the current key state. -/
def directionalKeyEvents (n : Nat) (s : MenuNavState) (event : MenuEvent) :
    MenuNavState :=
  if event.isKeyDown then pressedDown n event.keys (pressedUp n event.keys s)
  else s

/-- C7: a down (resp. up) key-down event with the select key not held
moves the focus index by +1 (resp. −1) with wraparound at both ends and
plays the scroll sound exactly once; from focus index 0 in a 4-button
menu, two down presses reach index 2 and two more wrap back to index 0,
with the scroll sound triggered exactly 4 times. -/
theorem C7_menu_focus_navigation (n : Nat) (s : MenuNavState)
    (keys : PressedKeys) (hcur : s.currentButton < n)
    (hsel : keys.select = false) :
    (keys.down = true → keys.up = false →
      directionalKeyEvents n s ⟨true, keys⟩ =
        ⟨(s.currentButton + 1) % n, s.scrollSoundCount + 1⟩)
    ∧ (keys.up = true → keys.down = false →
        directionalKeyEvents n s ⟨true, keys⟩ =
          ⟨(s.currentButton + (n - 1)) % n, s.scrollSoundCount + 1⟩)
    ∧ [(⟨true, ⟨false, true, false⟩⟩ : MenuEvent),
        ⟨true, ⟨false, true, false⟩⟩].foldl (directionalKeyEvents 4)
        ⟨0, 0⟩ = ⟨2, 2⟩
    ∧ [(⟨true, ⟨false, true, false⟩⟩ : MenuEvent),
        ⟨true, ⟨false, true, false⟩⟩, ⟨true, ⟨false, true, false⟩⟩,
        ⟨true, ⟨false, true, false⟩⟩].foldl (directionalKeyEvents 4)
        ⟨0, 0⟩ = ⟨0, 4⟩ := by
  refine ⟨?_, ?_, by decide, by decide⟩
  · intro hd hu
    have hmod : (if s.currentButton + 1 < n then s.currentButton + 1 else 0) =
        (s.currentButton + 1) % n := by
      split
      · exact (Nat.mod_eq_of_lt (by assumption)).symm
      · have hn : s.currentButton + 1 = n := by omega
        rw [hn, Nat.mod_self]
    simp [directionalKeyEvents, pressedUp, pressedDown, hd, hu, hsel, hmod]
  · intro hu hd
    have hmod : (if 1 ≤ s.currentButton ∧ s.currentButton - 1 < n then
          s.currentButton - 1
        else n - 1) = (s.currentButton + (n - 1)) % n := by
      split
      · rename_i hcase
        have hshift : s.currentButton + (n - 1) = (s.currentButton - 1) + n := by
          omega
        rw [hshift, Nat.add_mod_right, Nat.mod_eq_of_lt (by omega)]
      · rename_i hcase
        have hzero : s.currentButton = 0 := by omega
        rw [hzero, Nat.zero_add, Nat.mod_eq_of_lt (by omega)]
    simp [directionalKeyEvents, pressedUp, pressedDown, hd, hu, hsel, hmod]

/-- C7 witness: a single down press from focus index 3 of a 4-button
menu wraps to index 0 and rings the scroll sound once. -/
theorem C7_menu_focus_navigation_witness :
    directionalKeyEvents 4 ⟨3, 7⟩ ⟨true, ⟨false, true, false⟩⟩ =
      ⟨(3 + 1) % 4, 7 + 1⟩ :=
  (C7_menu_focus_navigation 4 ⟨3, 7⟩ ⟨false, true, false⟩ (by decide)
    rfl).1 rfl rfl

/-! ## Menu run loop and reset (`snakegame/menu/menu.py`) -/

/-- The `Menu` state touched by `start`/`__loop`/`__reset_state`:
focus index, selected option, last selected option, the running flag and
the background's current image index (`Background.reset_image_loop`
resets it to 0, the first frame). -/
structure MenuState where
  currentButton : Nat
  selectedOption : ButtonOption
  lastSelectedOption : ButtonOption
  isRunning : Bool
  currentImage : Nat
deriving DecidableEq, Repr

/-- `Menu.__reset_state`: focus index 0, first background frame, selected
option NONE, running flag re-armed; the last selected option is not
touched. -/
def menuResetState (s : MenuState) : MenuState :=
  { currentButton := 0
    selectedOption := ButtonOption.NONE
    lastSelectedOption := s.lastSelectedOption
    isRunning := true
    currentImage := 0 }

/-- One iteration of `Menu.__loop`'s body: in the IDLE state
(`selected_option == NONE`) run `__run_this`; otherwise record the last
selected option and delegate to the subclass's `run_another_action`.
`runThis` and `runAnotherAction` are the environment-dependent bodies. -/
def menuLoopStep (runThis : MenuState → MenuState)
    (runAnotherAction : ButtonOption → MenuState → MenuState)
    (s : MenuState) : MenuState :=
  if s.selectedOption = ButtonOption.NONE then runThis s
  else runAnotherAction s.selectedOption
    { s with lastSelectedOption := s.selectedOption }

/-- `Menu.__loop`'s `while self.__is_running` loop with explicit fuel;
returns the state at loop exit (reached only when `quit()` cleared the
running flag). -/
def menuLoop (fuel : Nat) (runThis : MenuState → MenuState)
    (runAnotherAction : ButtonOption → MenuState → MenuState)
    (s : MenuState) : Option MenuState :=
  match fuel with
  | 0 => none
  | Nat.succ fuel =>
      if s.isRunning then
        menuLoop fuel runThis runAnotherAction
          (menuLoopStep runThis runAnotherAction s)
      else some s

/-- `Menu.start`: runs the loop, which on exit resets the state, and
returns the last selected option; the returned pair is (return value,
menu state left behind for the next invocation). -/
def menuStart (fuel : Nat) (runThis : MenuState → MenuState)
    (runAnotherAction : ButtonOption → MenuState → MenuState)
    (s : MenuState) : Option (ButtonOption × MenuState) :=
  (menuLoop fuel runThis runAnotherAction s).map
    fun e => (e.lastSelectedOption, menuResetState e)

theorem menuLoop_exit_not_running (fuel : Nat)
    (runThis : MenuState → MenuState)
    (runAnotherAction : ButtonOption → MenuState → MenuState)
    (s e : MenuState)
    (hloop : menuLoop fuel runThis runAnotherAction s = some e) :
    e.isRunning = false := by
  induction fuel generalizing s with
  | zero => exact absurd hloop (by simp [menuLoop])
  | succ fuel ih =>
    rw [menuLoop] at hloop
    by_cases hrun : s.isRunning
    · rw [if_pos hrun] at hloop
      exact ih _ hloop
    · rw [if_neg hrun] at hloop
      cases hloop
      exact Bool.eq_false_iff.mpr hrun

/-- C9: whenever the menu loop exits via `quit()` (however many ticks
elapsed), the subsequent `__reset_state` restores focus index 0, selected
option NONE and the first background frame, leaves the
last-selected-option field unchanged, and `start()` returns that last
selected option to the caller. -/
theorem C9_reset_after_quit (fuel : Nat) (runThis : MenuState → MenuState)
    (runAnotherAction : ButtonOption → MenuState → MenuState)
    (s e : MenuState)
    (hloop : menuLoop fuel runThis runAnotherAction s = some e) :
    e.isRunning = false
    ∧ menuStart fuel runThis runAnotherAction s =
        some (e.lastSelectedOption, menuResetState e)
    ∧ (menuResetState e).currentButton = 0
    ∧ (menuResetState e).selectedOption = ButtonOption.NONE
    ∧ (menuResetState e).currentImage = 0
    ∧ (menuResetState e).lastSelectedOption = e.lastSelectedOption := by
  refine ⟨menuLoop_exit_not_running fuel runThis runAnotherAction s e hloop,
    ?_, rfl, rfl, rfl, rfl⟩
  simp [menuStart, hloop]

/-- C9 witness: a menu whose IDLE body selects QUIT-like behavior by
clearing the running flag after recording a selection; the loop exits in
three ticks and `start` hands the last selected option back while the
stored state is fully reset. -/
theorem C9_reset_after_quit_witness :
    (⟨(3 : Nat), ButtonOption.QUIT, ButtonOption.QUIT, false, 2⟩ :
        MenuState).isRunning = false
    ∧ menuStart 4
        (fun s => { s with
          selectedOption := ButtonOption.QUIT
          currentButton := 3
          currentImage := 2 })
        (fun _ s => { s with isRunning := false })
        ⟨0, ButtonOption.NONE, ButtonOption.NONE, true, 0⟩ =
        some (ButtonOption.QUIT,
          menuResetState ⟨3, ButtonOption.QUIT, ButtonOption.QUIT, false, 2⟩)
    ∧ (menuResetState
        ⟨3, ButtonOption.QUIT, ButtonOption.QUIT, false, 2⟩).currentButton = 0
    ∧ (menuResetState
        ⟨3, ButtonOption.QUIT, ButtonOption.QUIT, false, 2⟩).selectedOption =
        ButtonOption.NONE
    ∧ (menuResetState
        ⟨3, ButtonOption.QUIT, ButtonOption.QUIT, false, 2⟩).currentImage = 0
    ∧ (menuResetState
        ⟨3, ButtonOption.QUIT, ButtonOption.QUIT, false, 2⟩).lastSelectedOption =
        (⟨3, ButtonOption.QUIT, ButtonOption.QUIT, false, 2⟩ :
          MenuState).lastSelectedOption :=
  C9_reset_after_quit 4
    (fun s => { s with
      selectedOption := ButtonOption.QUIT
      currentButton := 3
      currentImage := 2 })
    (fun _ s => { s with isRunning := false })
    ⟨0, ButtonOption.NONE, ButtonOption.NONE, true, 0⟩
    ⟨3, ButtonOption.QUIT, ButtonOption.QUIT, false, 2⟩ rfl

/-! ## Menu construction validation (`snakegame/menu/menu.py`) -/

/-- `Menu.__check_button_alignment`: raises `ValueError` when the tag is
not in `[1, 2, 3]`, else returns it. -/
def checkButtonAlignment (buttonAlignment : Int) : Except String Int :=
  if buttonAlignment ∉ ([1, 2, 3] : List Int) then
    Except.error
      "Button alignment does not have a valid value! possible values are 1, 2 and 3."
  else Except.ok buttonAlignment

/-- `Menu.__init__` (the alignment-relevant part): validates the tag
before the buttons are configured and long before any drawing or loop
iteration (which happen only inside `start`), then assembles the initial
menu state. -/
def menuInit (buttonAlignment : Int) : Except String MenuState :=
  match checkButtonAlignment buttonAlignment with
  | Except.ok _ =>
      Except.ok
        { currentButton := 0
          selectedOption := ButtonOption.NONE
          lastSelectedOption := ButtonOption.NONE
          isRunning := true
          currentImage := 0 }
  | Except.error e => Except.error e

/-- C10: constructing a Menu with an alignment tag outside {1, 2, 3}
raises a ValueError during construction, before any drawing or loop
iteration; with a valid tag construction does not raise on account of
alignment. -/
theorem C10_alignment_validated_at_construction (a : Int) :
    (menuInit a =
        Except.error
          "Button alignment does not have a valid value! possible values are 1, 2 and 3."
      ↔ ¬ (a = 1 ∨ a = 2 ∨ a = 3))
    ∧ ((∃ s, menuInit a = Except.ok s) ↔ (a = 1 ∨ a = 2 ∨ a = 3)) := by
  have hmem : (a ∈ ([1, 2, 3] : List Int)) ↔ (a = 1 ∨ a = 2 ∨ a = 3) := by
    simp
  by_cases h : a = 1 ∨ a = 2 ∨ a = 3
  · have hni : ¬ a ∉ ([1, 2, 3] : List Int) := fun hc => hc (hmem.mpr h)
    rw [menuInit, checkButtonAlignment, if_neg hni]
    constructor
    · constructor
      · intro hcontra
        cases hcontra
      · intro hcontra
        exact absurd h hcontra
    · exact ⟨fun _ => h, fun _ => ⟨_, rfl⟩⟩
  · have hnin : a ∉ ([1, 2, 3] : List Int) := fun hc => h (hmem.mp hc)
    rw [menuInit, checkButtonAlignment, if_pos hnin]
    constructor
    · exact ⟨fun _ => h, fun _ => rfl⟩
    · constructor
      · intro hex
        obtain ⟨s, hs⟩ := hex
        cases hs
      · intro hcontra
        exact absurd hcontra h

/-- C10 witness: tag 5 is rejected with the ValueError message; tag 1 is
accepted. -/
theorem C10_alignment_validated_at_construction_witness :
    menuInit 5 =
      Except.error
        "Button alignment does not have a valid value! possible values are 1, 2 and 3."
    ∧ ∃ s, menuInit 1 = Except.ok s :=
  ⟨(C10_alignment_validated_at_construction 5).1.mpr (by decide),
    (C10_alignment_validated_at_construction 1).2.mpr (by decide)⟩

end SnakeGame
